import Mathlib

/-!
Shallow embedding of the order/checkout core of the `pos-test` point-of-sale
application (Svelte frontend, `src/routes/orders`, `src/routes/dashboard`,
`src/lib`), together with verification of its specification claims.

Monetary amounts are integer cents; JavaScript numbers that hold integers are
modelled as `Int` (with JavaScript truncating `%` modelled by `Int.tmod` and
`Math.floor` of a quotient by an `Int` floor division).
-/

/-- Embedding of `payment_method: "cash" | "card"` from `src/lib/types.ts`. -/
inductive PaymentMethod where
  | cash
  | card
deriving DecidableEq, Repr

/-- Embedding of the `Product` record from `src/lib/types.ts` (price in cents). -/
structure Product where
  id : String
  name : String
  price : Int
  category_id : String
  available : Bool
deriving DecidableEq, Repr

/-- Embedding of `CartItem` from `src/lib/types.ts`: product plus chosen quantity. -/
structure CartItem where
  product : Product
  quantity : Int
deriving DecidableEq, Repr

/-- Embedding of `cartTotal` from the sales page:
`cart.reduce((sum, i) => sum + i.product.price * i.quantity, 0)`. -/
def cartTotal (cart : List CartItem) : Int :=
  cart.foldl (fun sum i => sum + i.product.price * i.quantity) 0

/-- Embedding of `addToCart(product)` from the sales page: if a line for `product.id`
exists, increment its quantity, else append a new line at quantity 1. -/
def addToCart (cart : List CartItem) (product : Product) : List CartItem :=
  match cart.find? (fun i => i.product.id == product.id) with
  | some _ =>
      cart.map (fun i =>
        if i.product.id == product.id then { i with quantity := i.quantity + 1 } else i)
  | none => cart ++ [{ product := product, quantity := 1 }]

/-- Embedding of `increaseQuantity(productId)` from the sales page. -/
def increaseQuantity (cart : List CartItem) (productId : String) : List CartItem :=
  cart.map (fun i =>
    if i.product.id == productId then { i with quantity := i.quantity + 1 } else i)

/-- Embedding of `decreaseQuantity(productId)` from the sales page: decrement the matching
line, then drop every line whose quantity is not `> 0`. -/
def decreaseQuantity (cart : List CartItem) (productId : String) : List CartItem :=
  (cart.map (fun i =>
    if i.product.id == productId then { i with quantity := i.quantity - 1 } else i)).filter
    (fun i => i.quantity > 0)

/-- Embedding of `clearCart()` from the sales page. -/
def clearCart (_cart : List CartItem) : List CartItem := []

/-- Embedding of `CreateOrderItemPayload` from `src/lib/types.ts`. -/
structure CreateOrderItemPayload where
  product_id : String
  product_name : String
  unit_price : Int
  quantity : Int
deriving DecidableEq, Repr

/-- Embedding of `CreateOrderPayload` from `src/lib/types.ts`: only `items` and
`payment_method`; the interface declares no other field. -/
structure CreateOrderPayload where
  items : List CreateOrderItemPayload
  payment_method : PaymentMethod
deriving DecidableEq, Repr

/-- The payload that `submitOrder(paymentMethod)` on the sales page builds from
the cart: each line copies the product's id, name and price at this instant. -/
def submitOrderPayload (cart : List CartItem) (paymentMethod : PaymentMethod) :
    CreateOrderPayload :=
  { items := cart.map (fun i =>
      { product_id := i.product.id
        product_name := i.product.name
        unit_price := i.product.price
        quantity := i.quantity })
    payment_method := paymentMethod }

/-- Embedding of `OrderItem` from `src/lib/types.ts` (a stored, committed line item). -/
structure OrderItem where
  id : String
  order_id : String
  product_id : String
  product_name : String
  unit_price : Int
  quantity : Int
  total : Int
deriving DecidableEq, Repr

/-- Embedding of `OrderWithItems` from `src/lib/types.ts` (the `Order` fields flattened
with its items). -/
structure OrderWithItems where
  id : String
  created_at : String
  total : Int
  payment_method : PaymentMethod
  items : List OrderItem
deriving DecidableEq, Repr

/-- Mutable state of the sales page that `submitOrder` touches. -/
structure SalesPageState where
  cart : List CartItem
  isCheckoutOpen : Bool
  error : Option String
deriving DecidableEq, Repr

/-- The state transition performed by `submitOrder`, indexed by the outcome of
the awaited `create_order` invocation: on success the cart is reset and the
modal closed; on rejection the error message is set and the modal closed, the
cart untouched. -/
def submitOrderStep (s : SalesPageState) (result : Except String OrderWithItems) :
    SalesPageState :=
  match result with
  | Except.ok _ => { s with cart := [], isCheckoutOpen := false }
  | Except.error e => { s with error := some e, isCheckoutOpen := false }

/-- Embedding of `change` in `CheckoutModal`: `cashReceivedCents - total`. -/
def change (cashReceivedCents total : Int) : Int := cashReceivedCents - total

/-- Embedding of `canConfirm` in `CheckoutModal`: false while submitting, false with no
payment method selected, false for cash with `cashReceivedCents < total`. -/
def canConfirm (isSubmitting : Bool) (paymentMethod : Option PaymentMethod)
    (cashReceivedCents total : Int) : Bool :=
  if isSubmitting then false
  else
    match paymentMethod with
    | none => false
    | some pm => if pm = PaymentMethod.cash ∧ cashReceivedCents < total then false else true

/-- Embedding of `handleConfirm` in `CheckoutModal`: returns the payment method passed to
`onConfirm`, or `none` when the guard `!paymentMethod || !canConfirm` returns
early and `onConfirm` is never invoked. -/
def handleConfirm (isSubmitting : Bool) (paymentMethod : Option PaymentMethod)
    (cashReceivedCents total : Int) : Option PaymentMethod :=
  if paymentMethod.isNone ∨ canConfirm isSubmitting paymentMethod cashReceivedCents total = false
  then none
  else paymentMethod

/-- The commit request that a confirmed checkout sends: `handleConfirm` calls
`onConfirm(paymentMethod)`, which is the sales page's `submitOrder`, which
builds the payload from the cart and the payment method alone. `none` when the
checkout cannot be confirmed. -/
def checkoutCommitRequest (cart : List CartItem) (paymentMethod : Option PaymentMethod)
    (cashReceivedCents : Int) : Option CreateOrderPayload :=
  match handleConfirm false paymentMethod cashReceivedCents (cartTotal cart) with
  | none => none
  | some pm => some (submitOrderPayload cart pm)

/-- JavaScript's truncating remainder operator `%` on integers. -/
def jsRem (a b : Int) : Int := Int.tmod a b

/-- Embedding of `String.prototype.padStart(2, "0")`. -/
def padStart2 (s : String) : String :=
  if s.length < 2 then String.mk (List.replicate (2 - s.length) '0') ++ s else s

/-- Embedding of `formatPrice` from `src/lib/utils/format.ts`:
`euros = Math.floor(cents / 100)`, `remainder = Math.abs(cents % 100)`,
rendered as `euros,remainder €` with the remainder zero-padded to 2 digits.
`Int` division by the positive literal 100 is floor division, matching
`Math.floor`. -/
def formatPrice (cents : Int) : String :=
  toString (cents / 100) ++ "," ++ padStart2 (toString (jsRem cents 100).natAbs) ++ " €"

/-- One rendered row of the items table on the transaction-log page
(`src/routes/orders/+page.svelte`): product name, quantity, formatted unit
price, formatted line total — all read from the stored `OrderItem`. -/
def renderItemRow (item : OrderItem) : List String :=
  [item.product_name, toString item.quantity, formatPrice item.unit_price,
    formatPrice item.total]

/-- One rendered order card on the transaction-log page: payment-method badge,
formatted order total, and the item rows. The page receives only the stored
orders (`list_orders`); no catalog data is in scope. -/
def renderOrderCard (o : OrderWithItems) : PaymentMethod × String × List (List String) :=
  (o.payment_method, formatPrice o.total, o.items.map renderItemRow)

/-- The full transaction-log view: one card per stored order. -/
def renderOrdersPage (orders : List OrderWithItems) :
    List (PaymentMethod × String × List (List String)) :=
  orders.map renderOrderCard

/-- Embedding of `disabled` on the product button in `ProductGrid`:
`disabled defined as not product.available`. -/
def productButtonDisabled (p : Product) : Bool := !p.available

/-- Embedding of `ProductSalesSummary` from `src/lib/types.ts` (a dashboard per-product row). -/
structure ProductSalesSummary where
  product_id : String
  product_name : String
  total_quantity : Int
  total_revenue : Int
deriving DecidableEq, Repr

/-- Embedding of `centsToEuros` from the dashboard page: `(cents / 100).toFixed(2)`. -/
def centsToEuros (cents : Int) : String :=
  (if cents < 0 then "-" else "") ++ toString (cents.natAbs / 100) ++ "." ++
    padStart2 (toString (cents.natAbs % 100))

/-- Embedding of `q` from the dashboard page: wrap in double quotes, doubling each
inner quote (the global regex replace written out character by character). -/
def csvQuote (value : String) : String :=
  "\"" ++ String.mk (value.data.flatMap (fun c => if c = '\"' then ['\"', '\"'] else [c])) ++ "\""

/-- JavaScript `Math.round(a / b)` for integers `a`, `b` with `b > 0`:
`⌊a / b + 1 / 2⌋ = ⌊(2a + b) / (2b)⌋`, here in integer floor division
(`mathRound_eq_round` below proves it equal to Mathlib's `round` on `ℚ`). -/
def mathRound (a b : Int) : Int := (2 * a + b) / (2 * b)

/-- The per-product data row `exportCsv` pushes for the sales-by-product table:
the unit price column is `centsToEuros(Math.round(row.total_revenue /
row.total_quantity))`. -/
def exportCsvProductLine (row : ProductSalesSummary) : String :=
  String.intercalate ";"
    [csvQuote row.product_name,
      csvQuote (centsToEuros (mathRound row.total_revenue row.total_quantity)),
      csvQuote (toString row.total_quantity),
      csvQuote (centsToEuros row.total_revenue)]

/-- The unit-price cell of the dashboard per-product table:
`formatPrice(Math.round(row.total_revenue / row.total_quantity))`. -/
def dashboardUnitPriceCell (row : ProductSalesSummary) : String :=
  formatPrice (mathRound row.total_revenue row.total_quantity)

/-- Embedding of `UpdateProductPayload` from `src/lib/types.ts`. -/
structure UpdateProductPayload where
  id : String
  name : String
  price : Int
  category_id : String
  available : Bool
deriving DecidableEq, Repr

/-- Durable backend state: the product catalog and the append-only order log. -/
structure AppState where
  products : List Product
  orders : List OrderWithItems
deriving DecidableEq, Repr

/-- Modelled from the spec: the Rust `create_order` command (Tauri backend, not
under `src/`). Per the spec it snapshots each payload line's `product_name` and
`unit_price` into immutable `OrderItem` rows, computes each `lineTotal` as
`unitPriceSnapshot * quantity` and the order `total` as their sum, and appends
the transaction with its items atomically; `orderId`/`createdAt` stand for the
id and timestamp the store assigns at commit time. -/
def create_order (s : AppState) (payload : CreateOrderPayload)
    (orderId createdAt : String) : AppState :=
  let items : List OrderItem := payload.items.map (fun it =>
    { id := orderId ++ "-" ++ it.product_id
      order_id := orderId
      product_id := it.product_id
      product_name := it.product_name
      unit_price := it.unit_price
      quantity := it.quantity
      total := it.unit_price * it.quantity })
  { s with orders := s.orders ++
      [{ id := orderId
         created_at := createdAt
         total := (items.map OrderItem.total).sum
         payment_method := payload.payment_method
         items := items }] }

/-- Modelled from the spec: the Rust `update_product` command (not under
`src/`). A catalog edit rewrites the matching product record and touches
nothing else; per the spec the stored transactions are never updated. -/
def update_product (s : AppState) (u : UpdateProductPayload) : AppState :=
  { s with products := s.products.map (fun p =>
      if p.id == u.id then
        { id := p.id, name := u.name, price := u.price, category_id := u.category_id,
          available := u.available }
      else p) }

/-- The spec's structural cart invariant: every stored line has quantity at
least 1, and each product id occurs in at most one line. -/
def CartInv (cart : List CartItem) : Prop :=
  (∀ i ∈ cart, 1 ≤ i.quantity) ∧ cart.Pairwise (fun a b => a.product.id ≠ b.product.id)

/-- The rendering claimed for `formatPrice`: euro part `⌊c / 100⌋` (rational
floor division), decimal part the absolute truncating remainder (equal to
`|c| mod 100`) padded to two digits. -/
def claimedPriceRendering (c : Int) : String :=
  toString ⌊(c : ℚ) / 100⌋ ++ "," ++ padStart2 (toString (c.natAbs % 100)) ++ " €"

/-- The spec's blended-average unit price for a per-product summary:
`round(total_revenue / total_quantity)`. -/
def blendedAverageUnitPrice (total_revenue total_quantity : Int) : Int :=
  round ((total_revenue : ℚ) / (total_quantity : ℚ))

/-- Modelled from the spec: all stored line items across all orders — the
input the aggregation engine (Rust backend, not under `src/`) derives reports
from. -/
def allOrderItems (orders : List OrderWithItems) : List OrderItem :=
  orders.flatMap OrderWithItems.items

/-- Modelled from the spec: the dashboard's total revenue (the Rust
`get_dashboard_summary` command is not under `src/`), derived purely from the
stored line items' `total` fields. -/
def storedRevenue (orders : List OrderWithItems) : Int :=
  ((allOrderItems orders).map OrderItem.total).sum

/-- Sample catalog product A (price 150 cents). -/
def demoProductA : Product :=
  { id := "a", name := "Americano", price := 150, category_id := "c1", available := true }

/-- Sample catalog product B (price 200 cents). -/
def demoProductB : Product :=
  { id := "b", name := "Bagel", price := 200, category_id := "c1", available := true }

/-- Sample cart: two of product A, one of product B; total 500 cents. -/
def demoCart : List CartItem :=
  [{ product := demoProductA, quantity := 2 }, { product := demoProductB, quantity := 1 }]

/-- Sample product marked unavailable. -/
def unavailableProduct : Product :=
  { id := "u1", name := "Legacy Gin", price := 500, category_id := "c2", available := false }

/-- Sample product with a price of a billion cents. -/
def bulkProduct : Product :=
  { id := "bulk", name := "Pallet", price := 1000000000, category_id := "c3", available := true }

/-- Sample cart line with ten billion units of `bulkProduct`; its line total
already exceeds 2 to the 63rd power. -/
def bulkItem : CartItem := { product := bulkProduct, quantity := 10000000000 }

/-- Sample one-line cart holding `bulkItem`. -/
def bulkCart : List CartItem := [bulkItem]

/-- `Math.round(a / b)` in integer form agrees with rounding the exact
rational quotient, for positive divisors. -/
theorem mathRound_eq_round (a b : Int) (hb : 0 < b) :
    mathRound a b = round ((a : ℚ) / (b : ℚ)) := by
  have h2b : (0 : ℤ) < 2 * b := by positivity
  have hbq : ((b : ℚ)) ≠ 0 := by exact_mod_cast hb.ne'
  have hcast : (((2 * b).toNat : ℕ) : ℚ) = ((2 * b : ℤ) : ℚ) := by
    exact_mod_cast Int.toNat_of_nonneg h2b.le
  have hx : (a : ℚ) / (b : ℚ) + 1 / 2 = ((2 * a + b : ℤ) : ℚ) / (((2 * b).toNat : ℕ) : ℚ) := by
    rw [hcast]
    push_cast
    field_simp
    ring
  rw [round_eq, hx, Rat.floor_intCast_div_natCast, Int.toNat_of_nonneg h2b.le, mathRound]

/-- Bumping the quantity of the lines matching an id preserves the cart
invariant. -/
theorem cartInv_bump (cart : List CartItem) (pid : String) (h : CartInv cart) :
    CartInv (cart.map (fun i =>
      if i.product.id == pid then { i with quantity := i.quantity + 1 } else i)) := by
  obtain ⟨hq, hpw⟩ := h
  constructor
  · intro i hi
    obtain ⟨a, ha, rfl⟩ := List.mem_map.mp hi
    have h1 := hq a ha
    by_cases hid : (a.product.id == pid) = true
    · simp only [hid, if_pos]
      omega
    · simp only [hid]
      simpa using h1
  · rw [List.pairwise_map]
    refine hpw.imp_of_mem ?_
    intro a b _ _ hne
    by_cases ha : (a.product.id == pid) = true <;>
      by_cases hb : (b.product.id == pid) = true <;>
      simp [ha, hb, hne]

/-- In a cart whose lines have pairwise distinct product ids, two member lines
with the same product id are the same line. -/
theorem cart_unique_id (cart : List CartItem)
    (hpw : cart.Pairwise (fun a b => a.product.id ≠ b.product.id))
    (i j : CartItem) (hi : i ∈ cart) (hj : j ∈ cart)
    (hid : i.product.id = j.product.id) : i = j := by
  by_contra hne
  exact (hpw.forall (fun {a b} hab => fun hc => hab hc.symm) hi hj hne) hid

/-- Decreasing the quantity for a product id with no line in the cart leaves
the cart unchanged. -/
theorem decreaseQuantity_no_match (cart : List CartItem) (pid : String)
    (hq : ∀ i ∈ cart, 1 ≤ i.quantity) (hnm : ∀ i ∈ cart, ¬ i.product.id = pid) :
    decreaseQuantity cart pid = cart := by
  unfold decreaseQuantity
  have hmap : cart.map (fun i =>
      if i.product.id == pid then { i with quantity := i.quantity - 1 } else i) = cart := by
    have hpt : ∀ i ∈ cart,
        (if i.product.id == pid then { i with quantity := i.quantity - 1 } else i) = id i := by
      intro i hi
      have hne : ¬ (i.product.id == pid) = true := by simpa using hnm i hi
      simp [hne]
    rw [List.map_congr_left hpt, List.map_id]
  rw [hmap]
  apply List.filter_eq_self.mpr
  intro a ha
  have := hq a ha
  simp only [gt_iff_lt, decide_eq_true_eq]
  omega

/-- Decreasing the quantity of a line that sits at quantity 1 removes the line
entirely. -/
theorem decreaseQuantity_remove (cart : List CartItem) (pid : String) (i : CartItem)
    (hq : ∀ j ∈ cart, 1 ≤ j.quantity)
    (hpw : cart.Pairwise (fun a b => a.product.id ≠ b.product.id))
    (hi : i ∈ cart) (hid : i.product.id = pid) (h1 : i.quantity = 1) :
    decreaseQuantity cart pid = cart.filter (fun j => !(j.product.id == pid)) := by
  unfold decreaseQuantity
  rw [List.filter_map]
  have hfilter : cart.filter ((fun j => decide (j.quantity > 0)) ∘ (fun j =>
      if j.product.id == pid then { j with quantity := j.quantity - 1 } else j)) =
      cart.filter (fun j => !(j.product.id == pid)) := by
    apply List.filter_congr
    intro j hj
    by_cases hjid : (j.product.id == pid) = true
    · have hji : j = i := cart_unique_id cart hpw j i hj hi (by rw [eq_of_beq hjid, hid])
      subst hji
      simp [hid, h1]
    · have hb : (j.product.id == pid) = false := by simpa using hjid
      have := hq j hj
      simp only [Function.comp_apply, hb, Bool.not_false, Bool.false_eq_true, if_neg,
        not_false_eq_true, gt_iff_lt, decide_eq_true_eq, eq_iff_iff, iff_true]
      omega
  rw [hfilter]
  have hpt : ∀ j ∈ cart.filter (fun j => !(j.product.id == pid)),
      (if j.product.id == pid then { j with quantity := j.quantity - 1 } else j) = id j := by
    intro j hj
    have hne := (List.mem_filter.mp hj).2
    simp only [Bool.not_eq_true'] at hne
    simp [hne]
  rw [List.map_congr_left hpt, List.map_id]

/-- Decreasing the quantity of a line whose quantity exceeds 1 decrements it
and keeps every line. -/
theorem decreaseQuantity_decrement (cart : List CartItem) (pid : String) (i : CartItem)
    (hq : ∀ j ∈ cart, 1 ≤ j.quantity)
    (hpw : cart.Pairwise (fun a b => a.product.id ≠ b.product.id))
    (hi : i ∈ cart) (hid : i.product.id = pid) (hgt : 1 < i.quantity) :
    decreaseQuantity cart pid = cart.map (fun j =>
      if j.product.id == pid then { j with quantity := j.quantity - 1 } else j) := by
  unfold decreaseQuantity
  apply List.filter_eq_self.mpr
  intro x hx
  obtain ⟨j, hj, rfl⟩ := List.mem_map.mp hx
  by_cases hjid : (j.product.id == pid) = true
  · have hji : j = i := cart_unique_id cart hpw j i hj hi (by rw [eq_of_beq hjid, hid])
    subst hji
    simp only [hjid, if_pos, gt_iff_lt, decide_eq_true_eq]
    omega
  · have := hq j hj
    simp only [hjid, Bool.false_eq_true, not_false_eq_true, if_neg, gt_iff_lt,
      decide_eq_true_eq]
    omega

/-- The absolute value of JavaScript's truncating remainder by 100 is the
absolute value's remainder by 100. -/
theorem natAbs_jsRem_100 (a : Int) : (jsRem a 100).natAbs = a.natAbs % 100 := by
  cases a with
  | ofNat m => rfl
  | negSucc m =>
      show (-(Int.ofNat (m.succ % 100))).natAbs = (m.succ : Nat) % 100
      rw [Int.natAbs_neg]
      rfl

/-- Integer floor division by 100 agrees with the rational floor of the exact
quotient. -/
theorem intDiv_100_eq_floor (c : Int) : c / 100 = ⌊(c : ℚ) / 100⌋ := by
  have h := Rat.floor_intCast_div_natCast c 100
  have hcast : (((100 : ℕ) : ℚ)) = (100 : ℚ) := by norm_num
  rw [hcast] at h
  have hcast2 : ((100 : ℕ) : ℤ) = (100 : ℤ) := by norm_num
  rw [hcast2] at h
  exact h.symm

/-- On negatives that 100 does not divide, floor division by 100 is one less
than truncating division by 100. -/
theorem floor_div_100_of_neg (c : Int) (hneg : c < 0) (hnd : ¬ (100 : Int) ∣ c) :
    ⌊(c : ℚ) / 100⌋ = c.tdiv 100 - 1 := by
  rw [← intDiv_100_eq_floor]
  have h2 : (-c).tdiv 100 = (-c) / 100 := Int.tdiv_eq_ediv (by omega) (by omega)
  have h3 : c.tdiv 100 = -((-c) / 100) := by
    rw [← h2, ← Int.neg_tdiv, neg_neg]
  rw [h3]
  omega

/-- C4: for every sales-page state, when the `create_order` commit call
rejects, `submitOrder` leaves the cart exactly as it was before the call; the
cart is reset to empty only on the success path. -/
theorem c4_submitOrder_error_preserves_cart (s : SalesPageState) (e : String)
    (o : OrderWithItems) :
    (submitOrderStep s (Except.error e)).cart = s.cart ∧
    (submitOrderStep s (Except.ok o)).cart = [] :=
  ⟨rfl, rfl⟩

/-- C2: for every positive cart total under the cash payment method, a cash
amount below the total makes `canConfirm` false and `handleConfirm` never
invokes `onConfirm`; a cash amount equal to the total gives change 0; a cash
amount above the total gives change `cashReceived - total`. -/
theorem c2_cash_validation (total cashReceivedCents : Int) (htotal : 0 < total) :
    (cashReceivedCents < total →
      canConfirm false (some PaymentMethod.cash) cashReceivedCents total = false ∧
      handleConfirm false (some PaymentMethod.cash) cashReceivedCents total = none) ∧
    (cashReceivedCents = total → change cashReceivedCents total = 0) ∧
    (total < cashReceivedCents → change cashReceivedCents total = cashReceivedCents - total) := by
  refine ⟨?_, ?_, ?_⟩
  · intro h
    have hc : canConfirm false (some PaymentMethod.cash) cashReceivedCents total = false := by
      simp [canConfirm, h]
    exact ⟨hc, by simp [handleConfirm, hc]⟩
  · intro h
    simp [change, h]
  · intro _
    rfl

/-- C2 witness at total 300 with cash 200, 300 and 500. -/
theorem c2_cash_validation_witness :
    (canConfirm false (some PaymentMethod.cash) 200 300 = false ∧
      handleConfirm false (some PaymentMethod.cash) 200 300 = none) ∧
    change 300 300 = 0 ∧
    change 500 300 = 500 - 300 :=
  ⟨(c2_cash_validation 300 200 (by decide)).1 (by decide),
    (c2_cash_validation 300 300 (by decide)).2.1 rfl,
    (c2_cash_validation 300 500 (by decide)).2.2 (by decide)⟩

/-- C3 counterexample: two cash checkouts of the same 500-cent cart with
different received amounts (500 and 1000 cents) send the identical commit
request, so the request cannot carry the cash amount; the request consists of
the items and the payment method only. -/
theorem c3_counterexample :
    checkoutCommitRequest demoCart (some PaymentMethod.cash) 500 =
      checkoutCommitRequest demoCart (some PaymentMethod.cash) 1000 ∧
    checkoutCommitRequest demoCart (some PaymentMethod.cash) 500 =
      some ⟨[⟨"a", "Americano", 150, 2⟩, ⟨"b", "Bagel", 200, 1⟩], PaymentMethod.cash⟩ := by
  constructor <;> rfl

/-- C3 amended: the commit request of a confirmable checkout is exactly
`submitOrderPayload` (line items plus payment method) and is independent of the
cash amount entered: any two cash amounts that both allow confirmation produce
the same request. -/
theorem c3_payload_independent_of_cash (cart : List CartItem) (p : PaymentMethod)
    (cash1 cash2 : Int)
    (h1 : canConfirm false (some p) cash1 (cartTotal cart) = true)
    (h2 : canConfirm false (some p) cash2 (cartTotal cart) = true) :
    checkoutCommitRequest cart (some p) cash1 = some (submitOrderPayload cart p) ∧
    checkoutCommitRequest cart (some p) cash1 = checkoutCommitRequest cart (some p) cash2 := by
  have e1 : checkoutCommitRequest cart (some p) cash1 = some (submitOrderPayload cart p) := by
    simp [checkoutCommitRequest, handleConfirm, h1]
  have e2 : checkoutCommitRequest cart (some p) cash2 = some (submitOrderPayload cart p) := by
    simp [checkoutCommitRequest, handleConfirm, h2]
  exact ⟨e1, e1.trans e2.symm⟩

/-- C3 witness: at the sample cart (total 500) with cash 500 and 1000. -/
theorem c3_payload_independent_of_cash_witness :
    checkoutCommitRequest demoCart (some PaymentMethod.cash) 500 =
      some (submitOrderPayload demoCart PaymentMethod.cash) ∧
    checkoutCommitRequest demoCart (some PaymentMethod.cash) 500 =
      checkoutCommitRequest demoCart (some PaymentMethod.cash) 1000 :=
  c3_payload_independent_of_cash demoCart PaymentMethod.cash 500 1000 (by decide) (by decide)

/-- C7 counterexample: adding a product with `available = false` to the empty
cart raises no error and changes the cart — `addToCart` performs no
availability check. -/
theorem c7_counterexample :
    unavailableProduct.available = false ∧
    addToCart [] unavailableProduct = [{ product := unavailableProduct, quantity := 1 }] := by
  constructor <;> rfl

/-- C7 amended: `addToCart` performs no availability check — even for a
product with `available = false` it puts a line for that product into the
cart; the only guard is in the UI, where `ProductGrid` renders the product's
button disabled. -/
theorem c7_addToCart_ignores_availability (cart : List CartItem) (p : Product)
    (h : p.available = false) :
    productButtonDisabled p = true ∧
    ∃ i ∈ addToCart cart p, i.product.id = p.id := by
  constructor
  · simp [productButtonDisabled, h]
  · unfold addToCart
    cases hf : cart.find? (fun i => i.product.id == p.id) with
    | none =>
        exact ⟨{ product := p, quantity := 1 }, by simp, rfl⟩
    | some j =>
        have hj : j ∈ cart := List.mem_of_find?_eq_some hf
        have hid : (j.product.id == p.id) = true := by simpa using List.find?_some hf
        refine ⟨{ j with quantity := j.quantity + 1 }, ?_, ?_⟩
        · exact List.mem_map.mpr ⟨j, hj, by simp [hid]⟩
        · exact eq_of_beq hid

/-- C7 witness: the sample unavailable product, added to the empty cart. -/
theorem c7_addToCart_ignores_availability_witness :
    productButtonDisabled unavailableProduct = true ∧
    ∃ i ∈ addToCart [] unavailableProduct, i.product.id = unavailableProduct.id :=
  c7_addToCart_ignores_availability [] unavailableProduct rfl

/-- C8 counterexample: a cart line whose line total already exceeds 2^63 (the
spec's 64-bit Money ceiling) is still incremented by `increaseQuantity`: no
configured ceiling rejects the increase. -/
theorem c8_counterexample :
    (2 : Int) ^ 63 < bulkItem.product.price * bulkItem.quantity ∧
    increaseQuantity bulkCart "bulk" = [{ product := bulkProduct, quantity := 10000000001 }] ∧
    cartTotal (increaseQuantity bulkCart "bulk") = 10000000001000000000 := by
  refine ⟨by decide, by rfl, by rfl⟩

/-- C8 amended: the Order Builder enforces no ceiling — `increaseQuantity`
unconditionally increments every matching line (it has no rejection path), and
no bound caps the resulting cart total. -/
theorem c8_no_ceiling :
    (∀ (cart : List CartItem) (pid : String) (i : CartItem), i ∈ cart → i.product.id = pid →
      { product := i.product, quantity := i.quantity + 1 } ∈ increaseQuantity cart pid) ∧
    (∀ C : Int, ∃ (cart : List CartItem) (pid : String),
      C < cartTotal (increaseQuantity cart pid)) := by
  constructor
  · intro cart pid i hi hid
    exact List.mem_map.mpr ⟨i, hi, by simp [increaseQuantity, hid]⟩
  · intro C
    refine ⟨[⟨⟨"z", "Z", C.natAbs + 1, "z", true⟩, 1⟩], "z", ?_⟩
    have h1 : C ≤ (C.natAbs : Int) := Int.le_natAbs
    show C < 0 + ((C.natAbs : Int) + 1) * (1 + 1)
    omega

/-- C8 witness: the bulk line is incremented, and some cart exceeds total 0. -/
theorem c8_no_ceiling_witness :
    { product := bulkItem.product, quantity := bulkItem.quantity + 1 } ∈
      increaseQuantity bulkCart "bulk" ∧
    ∃ (cart : List CartItem) (pid : String), (0 : Int) < cartTotal (increaseQuantity cart pid) :=
  ⟨c8_no_ceiling.1 bulkCart "bulk" bulkItem (by simp [bulkCart]) rfl, c8_no_ceiling.2 0⟩

/-- C5: every cart operation — `addToCart`, `increaseQuantity`,
`decreaseQuantity`, `clearCart` — preserves the structural invariant that each
product id occurs in at most one line and every stored line has quantity at
least 1. -/
theorem c5_cart_operations_preserve_invariant (cart : List CartItem) (p : Product)
    (productId : String) (h : CartInv cart) :
    CartInv (addToCart cart p) ∧ CartInv (increaseQuantity cart productId) ∧
    CartInv (decreaseQuantity cart productId) ∧ CartInv (clearCart cart) := by
  obtain ⟨hq, hpw⟩ := h
  refine ⟨?_, ?_, ?_, ?_⟩
  · unfold addToCart
    cases hf : cart.find? (fun i => i.product.id == p.id) with
    | some j => exact cartInv_bump cart p.id ⟨hq, hpw⟩
    | none =>
        constructor
        · intro i hi
          rcases List.mem_append.mp hi with h1 | h2
          · exact hq i h1
          · simp only [List.mem_singleton] at h2
            rw [h2]
        · rw [List.pairwise_append]
          refine ⟨hpw, List.pairwise_singleton _ _, ?_⟩
          intro a ha b hb
          simp only [List.mem_singleton] at hb
          subst hb
          have hne := List.find?_eq_none.mp hf a ha
          simpa using hne
  · exact cartInv_bump cart productId ⟨hq, hpw⟩
  · constructor
    · intro i hi
      have hmem := List.mem_filter.mp hi
      have := hmem.2
      simp only [gt_iff_lt, decide_eq_true_eq] at this
      omega
    · exact ((List.pairwise_map.mpr (hpw.imp_of_mem (by
        intro a b _ _ hne
        by_cases ha : (a.product.id == productId) = true <;>
          by_cases hb : (b.product.id == productId) = true <;>
          simp [ha, hb, hne]))).sublist (List.filter_sublist _))
  · exact ⟨fun i hi => absurd hi (List.not_mem_nil i), List.Pairwise.nil⟩

/-- C5 witness: the sample cart, with each of the four operations applied. -/
theorem c5_cart_operations_preserve_invariant_witness :
    CartInv (addToCart demoCart demoProductA) ∧ CartInv (increaseQuantity demoCart "a") ∧
    CartInv (decreaseQuantity demoCart "a") ∧ CartInv (clearCart demoCart) :=
  c5_cart_operations_preserve_invariant demoCart demoProductA "a"
    (by constructor <;> decide)

/-- C6: under the cart invariant, `decreaseQuantity` is a no-op for a product
id with no line; it removes a line sitting at quantity 1; and it decrements a
line whose quantity exceeds 1. -/
theorem c6_decrease_semantics (cart : List CartItem) (pid : String) (h : CartInv cart) :
    ((∀ i ∈ cart, ¬ i.product.id = pid) → decreaseQuantity cart pid = cart) ∧
    (∀ i ∈ cart, i.product.id = pid →
      (i.quantity = 1 →
        decreaseQuantity cart pid = cart.filter (fun j => !(j.product.id == pid))) ∧
      (1 < i.quantity →
        decreaseQuantity cart pid = cart.map (fun j =>
          if j.product.id == pid then { j with quantity := j.quantity - 1 } else j))) := by
  obtain ⟨hq, hpw⟩ := h
  refine ⟨fun hnm => decreaseQuantity_no_match cart pid hq hnm, ?_⟩
  intro i hi hid
  exact ⟨fun h1 => decreaseQuantity_remove cart pid i hq hpw hi hid h1,
    fun hgt => decreaseQuantity_decrement cart pid i hq hpw hi hid hgt⟩

/-- C6 witness: the sample cart with a missing id, the quantity-1 line "b"
and the quantity-2 line "a". -/
theorem c6_decrease_semantics_witness :
    decreaseQuantity demoCart "zz" = demoCart ∧
    decreaseQuantity demoCart "b" = demoCart.filter (fun j => !(j.product.id == "b")) ∧
    decreaseQuantity demoCart "a" = demoCart.map (fun j =>
      if j.product.id == "a" then { j with quantity := j.quantity - 1 } else j) :=
  ⟨(c6_decrease_semantics demoCart "zz" (by constructor <;> decide)).1 (by decide),
    ((c6_decrease_semantics demoCart "b" (by constructor <;> decide)).2
      { product := demoProductB, quantity := 1 } (by decide) rfl).1 rfl,
    ((c6_decrease_semantics demoCart "a" (by constructor <;> decide)).2
      { product := demoProductA, quantity := 2 } (by decide) rfl).2 (by decide)⟩

/-- C10: `formatPrice c` renders the floor of `c / 100` as the euro part and
the two-digit padded `|c| mod 100` (the absolute truncating remainder) as the
decimal part; for negative `c` not divisible by 100 the floor is one below the
truncated quotient, so the euro part reads one lower. -/
theorem c10_formatPrice_rendering (c : Int) :
    formatPrice c = claimedPriceRendering c ∧
    (c < 0 → ¬ (100 : Int) ∣ c → ⌊(c : ℚ) / 100⌋ = c.tdiv 100 - 1) := by
  constructor
  · unfold formatPrice claimedPriceRendering
    rw [intDiv_100_eq_floor, natAbs_jsRem_100]
  · exact floor_div_100_of_neg c

/-- C10 witness at -150 cents: the rendering matches and the euro part is one
below the truncated value, giving "-2,50 €". -/
theorem c10_formatPrice_rendering_witness :
    formatPrice (-150) = claimedPriceRendering (-150) ∧
    ⌊((-150 : Int) : ℚ) / 100⌋ = (-150 : Int).tdiv 100 - 1 :=
  ⟨(c10_formatPrice_rendering (-150)).1,
    (c10_formatPrice_rendering (-150)).2 (by decide) (by decide)⟩

/-- C9: for every per-product summary row with positive quantity, the unit
price rendered in the dashboard table and written to the CSV export is
`round(total_revenue / total_quantity)` — a blended average, which (as the
concrete 150/200-cent example shows) need not equal any single historical
snapshot price. -/
theorem c9_blended_average_unit_price (row : ProductSalesSummary)
    (hqty : 0 < row.total_quantity) :
    dashboardUnitPriceCell row =
      formatPrice (blendedAverageUnitPrice row.total_revenue row.total_quantity) ∧
    exportCsvProductLine row = String.intercalate ";"
      [csvQuote row.product_name,
        csvQuote (centsToEuros (blendedAverageUnitPrice row.total_revenue row.total_quantity)),
        csvQuote (toString row.total_quantity),
        csvQuote (centsToEuros row.total_revenue)] ∧
    blendedAverageUnitPrice 300 2 = 150 ∧
    blendedAverageUnitPrice 300 2 ≠ 100 ∧ blendedAverageUnitPrice 300 2 ≠ 200 := by
  have hb : mathRound row.total_revenue row.total_quantity =
      blendedAverageUnitPrice row.total_revenue row.total_quantity := by
    rw [mathRound_eq_round _ _ hqty]
    rfl
  have h300 : blendedAverageUnitPrice 300 2 = 150 := by
    unfold blendedAverageUnitPrice
    rw [← mathRound_eq_round 300 2 (by norm_num)]
    decide
  refine ⟨?_, ?_, h300, ?_, ?_⟩
  · unfold dashboardUnitPriceCell
    rw [hb]
  · unfold exportCsvProductLine
    rw [hb]
  · rw [h300]; decide
  · rw [h300]; decide

/-- C9 witness: the summary row with revenue 300 over quantity 2. -/
theorem c9_blended_average_unit_price_witness :
    dashboardUnitPriceCell ⟨"a", "Americano", 2, 300⟩ =
      formatPrice (blendedAverageUnitPrice 300 2) ∧
    exportCsvProductLine ⟨"a", "Americano", 2, 300⟩ = String.intercalate ";"
      [csvQuote "Americano", csvQuote (centsToEuros (blendedAverageUnitPrice 300 2)),
        csvQuote (toString (2 : Int)), csvQuote (centsToEuros 300)] ∧
    blendedAverageUnitPrice 300 2 = 150 ∧
    blendedAverageUnitPrice 300 2 ≠ 100 ∧ blendedAverageUnitPrice 300 2 ≠ 200 :=
  c9_blended_average_unit_price ⟨"a", "Americano", 2, 300⟩ (by decide)

/-- C1: committing a cart snapshots each line's product name and unit price
into the stored order; a later catalog edit (`update_product`) leaves the
stored orders, the rendered transaction log and the stored revenue untouched;
and the committed order's rendered rows show the commit-time name, unit price
and line total of each cart line, with the order total equal to the cart
total. -/
theorem c1_snapshot_invariant (s : AppState) (cart : List CartItem) (pm : PaymentMethod)
    (oid ts : String) (u : UpdateProductPayload) :
    (update_product (create_order s (submitOrderPayload cart pm) oid ts) u).orders =
      (create_order s (submitOrderPayload cart pm) oid ts).orders ∧
    renderOrdersPage
        (update_product (create_order s (submitOrderPayload cart pm) oid ts) u).orders =
      renderOrdersPage (create_order s (submitOrderPayload cart pm) oid ts).orders ∧
    storedRevenue (update_product (create_order s (submitOrderPayload cart pm) oid ts) u).orders =
      storedRevenue (create_order s (submitOrderPayload cart pm) oid ts).orders ∧
    ∃ o : OrderWithItems,
      (create_order s (submitOrderPayload cart pm) oid ts).orders = s.orders ++ [o] ∧
      o.items.map renderItemRow = cart.map (fun i =>
        [i.product.name, toString i.quantity, formatPrice i.product.price,
          formatPrice (i.product.price * i.quantity)]) ∧
      o.total = cartTotal cart ∧
      o.payment_method = pm := by
  refine ⟨rfl, rfl, rfl, ?_⟩
  refine ⟨_, rfl, ?_, ?_, rfl⟩
  · simp only [create_order, submitOrderPayload, List.map_map]
    rfl
  · show (((cart.map _).map _).map OrderItem.total).sum = cartTotal cart
    simp only [List.map_map]
    rw [cartTotal, List.sum_eq_foldl, List.foldl_map]
    rfl
